import Mathlib

/-!
Verification of the Byword intake HTTP service (`src/server.js`).

The service is a small Express application: a CORS middleware that also
short-circuits `OPTIONS` requests, a JSON body parser, six literal routes
(`GET /health`, `GET /`, `GET /api/status`, `POST /api/contact`,
`POST /api/intake`, `POST /api/catering`), a terminal error-formatting
middleware and a 404 fallback.  The embedding below models requests as
parsed JSON bodies with a method and a path, the clock (`Date.now()` /
`new Date().toISOString()`) as an explicit environment value, and each
handler as a pure function from that environment to a response.
-/

namespace Byword

/-- A JSON value: the shape of parsed request bodies and of the JSON
payloads the handlers produce with `res.json(...)`. -/
inductive Json where
  | null : Json
  | bool : Bool → Json
  | num : Int → Json
  | str : String → Json
  | arr : List Json → Json
  | obj : List (String × Json) → Json

/-- Reading a field of a JSON value, as JavaScript property access /
destructuring does on a request body: on an object the first binding of
the key, `undefined` (here `none`) otherwise. -/
def Json.lookup : Json → String → Option Json
  | .obj fields, k => fields.lookup k
  | _, _ => none

/-- The values of a JSON object, in order; empty for non-objects. -/
def Json.objValues : Json → List Json
  | .obj fields => fields.map Prod.snd
  | _ => []

/-- The clock environment of one request: `Date.now()` (epoch
milliseconds) and `new Date().toISOString()`. -/
structure Clock where
  nowMs : Nat
  isoNow : String
deriving DecidableEq

/-- Process-wide configuration read at startup: the `port` value
(`process.env.PORT || 8080`) and `process.uptime()` as they are placed
into response payloads. -/
structure Env where
  port : Json
  uptime : Json

/-- An HTTP request after JSON body parsing. -/
structure Request where
  method : String
  path : String
  body : Json

/-- The body of an HTTP response: nothing, plain text (`res.sendStatus`),
or a JSON payload (`res.json`). -/
inductive ResBody where
  | empty : ResBody
  | text : String → ResBody
  | json : Json → ResBody

/-- An HTTP response: status code, response headers, body. -/
structure Response where
  status : Nat
  headers : List (String × String)
  body : ResBody

/-- The field `k` of a JSON response body, `none` for non-JSON bodies. -/
def Response.jsonField (r : Response) (k : String) : Option Json :=
  match r.body with
  | .json j => j.lookup k
  | _ => none

/-- The length of the array stored at field `k` of a JSON response body. -/
def Response.arrayFieldLength (r : Response) (k : String) : Option Nat :=
  match r.jsonField k with
  | some (.arr l) => some l.length
  | _ => none

/-- The three headers set by the CORS middleware (`server.js` lines 5-8)
on every response. -/
def corsHeaders : List (String × String) :=
  [("Access-Control-Allow-Origin", "*"),
   ("Access-Control-Allow-Methods", "GET, POST, PUT, DELETE, OPTIONS"),
   ("Access-Control-Allow-Headers", "Content-Type, Authorization")]

/-- `GET /health` (`server.js` lines 23-30). -/
def healthHandler (env : Env) (clock : Clock) : Response :=
  { status := 200,
    headers := corsHeaders,
    body := .json (.obj
      [("status", .str "healthy"),
       ("timestamp", .str clock.isoNow),
       ("port", env.port),
       ("service", .str "byword-intake-api")]) }

/-- `GET /` (`server.js` lines 33-45). -/
def rootHandler (env : Env) : Response :=
  { status := 200,
    headers := corsHeaders,
    body := .json (.obj
      [("message", .str "Byword API is running! 🚀"),
       ("port", env.port),
       ("service", .str "byword-intake-api"),
       ("endpoints", .obj
         [("health", .str "/health"),
          ("contact", .str "/api/contact"),
          ("status", .str "/api/status"),
          ("intake", .str "/api/intake")])]) }

/-- `GET /api/status` (`server.js` lines 48-57). -/
def statusHandler (env : Env) (clock : Clock) : Response :=
  { status := 200,
    headers := corsHeaders,
    body := .json (.obj
      [("service", .str "byword-intake-api"),
       ("status", .str "operational"),
       ("version", .str "1.0.0"),
       ("uptime", env.uptime),
       ("timestamp", .str clock.isoNow),
       ("endpoints_available", .arr
         [.str "health", .str "contact", .str "status", .str "intake"])]) }

/-- The `response_message` chosen by the contact handler from the body's
`service_type` (`server.js` lines 66-75); JavaScript `===` against the
string literals means only the exact strings select a branch. -/
def contactResponseMessage (st : Option Json) : String :=
  match st with
  | some (.str "legal") =>
    "Thank you for your legal inquiry. Our legal team will review your case and respond promptly."
  | some (.str "catering") =>
    "Thank you for your catering inquiry! We'll send you a custom menu and pricing within 24 hours."
  | _ =>
    "Thank you for your inquiry! We'll be in touch soon."

/-- The `estimated_response` chosen by the contact handler from the
body's `service_type` (`server.js` lines 67-75). -/
def contactEstimatedResponse (st : Option Json) : String :=
  match st with
  | some (.str "legal") => "12 hours"
  | some (.str "catering") => "6 hours"
  | _ => "24 hours"

/-- `POST /api/contact` (`server.js` lines 60-90).  Of the destructured
body fields only `service_type` reaches the response; the others are only
logged. -/
def contactHandler (clock : Clock) (body : Json) : Response :=
  let st := body.lookup "service_type"
  { status := 200,
    headers := corsHeaders,
    body := .json (.obj
      [("success", .bool true),
       ("message", .str (contactResponseMessage st)),
       ("estimated_response_time", .str (contactEstimatedResponse st)),
       ("contact_id", .str ("BWM_" ++ Nat.repr clock.nowMs)),
       ("timestamp", .str clock.isoNow),
       ("next_steps", .arr
         [.str "Your inquiry has been logged",
          .str "Our team will review your request",
          .str ("You'll receive a response within " ++ contactEstimatedResponse st),
          .str "Check your email for confirmation"])]) }

/-- `POST /api/intake` (`server.js` lines 93-111). -/
def intakeHandler (clock : Clock) : Response :=
  { status := 200,
    headers := corsHeaders,
    body := .json (.obj
      [("success", .bool true),
       ("message", .str "Legal intake form submitted successfully"),
       ("case_id", .str ("LEGAL_" ++ Nat.repr clock.nowMs)),
       ("status", .str "pending_review"),
       ("next_steps", .arr
         [.str "Case has been assigned a unique ID",
          .str "Legal team will review within 24 hours",
          .str "You'll receive a consultation scheduling email",
          .str "All communications will reference your case ID"]),
       ("estimated_consultation", .str "3-5 business days")]) }

/-- `POST /api/catering` (`server.js` lines 114-132). -/
def cateringHandler (clock : Clock) : Response :=
  { status := 200,
    headers := corsHeaders,
    body := .json (.obj
      [("success", .bool true),
       ("message", .str "Catering inquiry submitted successfully"),
       ("inquiry_id", .str ("CATERING_" ++ Nat.repr clock.nowMs)),
       ("status", .str "pending_quote"),
       ("next_steps", .arr
         [.str "Our catering team will prepare a custom proposal",
          .str "Menu options will be tailored to your event",
          .str "Pricing will be provided within 24 hours",
          .str "We'll schedule a tasting if desired"]),
       ("estimated_quote", .str "24 hours")]) }

/-- The 404 fallback (`server.js` lines 146-153). -/
def notFoundHandler (clock : Clock) : Response :=
  { status := 404,
    headers := corsHeaders,
    body := .json (.obj
      [("success", .bool false),
       ("message", .str "Endpoint not found"),
       ("available_endpoints", .arr
         [.str "/", .str "/health", .str "/api/status",
          .str "/api/contact", .str "/api/intake", .str "/api/catering"]),
       ("timestamp", .str clock.isoNow)]) }

/-- The terminal error-formatting middleware (`server.js` lines 135-143):
the response for a caught error with message `errMsg`. -/
def errorHandler (errMsg : String) (clock : Clock) : Response :=
  { status := 500,
    headers := corsHeaders,
    body := .json (.obj
      [("success", .bool false),
       ("message", .str "Internal server error"),
       ("error", .str errMsg),
       ("timestamp", .str clock.isoNow)]) }

/-- Express runs a handler and, when it throws, passes the error to the
terminal error middleware: the composed behavior of a (possibly
throwing) handler with `server.js` lines 135-143. -/
def runWithErrorHandler (clock : Clock) (h : Request → Except String Response)
    (req : Request) : Response :=
  match h req with
  | .ok r => r
  | .error e => errorHandler e clock

/-- Whether `method` and `path` exactly match one of the six registered
routes (`app.get` / `app.post` registrations in `server.js`). -/
def matchesRoute (method path : String) : Prop :=
  (method = "GET" ∧ (path = "/health" ∨ path = "/" ∨ path = "/api/status")) ∨
  (method = "POST" ∧
    (path = "/api/contact" ∨ path = "/api/intake" ∨ path = "/api/catering"))

instance (method path : String) : Decidable (matchesRoute method path) := by
  unfold matchesRoute
  infer_instance

/-- Route matching after the middleware stage: the six literal routes in
registration order, falling through to the 404 handler (`server.js`
lines 23-153). -/
def routeRequest (env : Env) (clock : Clock) (req : Request) : Response :=
  if req.method = "GET" ∧ req.path = "/health" then healthHandler env clock
  else if req.method = "GET" ∧ req.path = "/" then rootHandler env
  else if req.method = "GET" ∧ req.path = "/api/status" then statusHandler env clock
  else if req.method = "POST" ∧ req.path = "/api/contact" then
    contactHandler clock req.body
  else if req.method = "POST" ∧ req.path = "/api/intake" then intakeHandler clock
  else if req.method = "POST" ∧ req.path = "/api/catering" then cateringHandler clock
  else notFoundHandler clock

/-- One full request through the middleware chain (`server.js` lines
5-153): the CORS middleware sets its headers on every response and on an
`OPTIONS` request short-circuits with `res.sendStatus(200)` — which in
Express sets status 200 and sends the status message `"OK"` as a plain
text body — before any route is consulted; every other request proceeds
to route matching. -/
def handleRequest (env : Env) (clock : Clock) (req : Request) : Response :=
  if req.method = "OPTIONS" then
    { status := 200, headers := corsHeaders, body := .text "OK" }
  else
    routeRequest env clock req

/-- The server holds no mutable state across requests (`server.js` has no
module-level mutable bindings): a trace of requests, each with its clock
instant, is answered pointwise. -/
def serverRun (env : Env) (trace : List (Clock × Request)) : List Response :=
  trace.map (fun p => handleRequest env p.1 p.2)

/-! ### Helper lemmas -/

/-- `Nat.digitChar` maps residues below ten to digit characters. -/
theorem digitChar_isDigit (m : Nat) (h : m < 10) : (Nat.digitChar m).isDigit = true := by
  interval_cases m <;> decide

theorem toDigitsCore_all_digits (f : Nat) : ∀ (n : Nat) (acc : List Char),
    acc.all Char.isDigit = true →
    (Nat.toDigitsCore 10 f n acc).all Char.isDigit = true := by
  induction f with
  | zero => intro n acc hacc; simpa [Nat.toDigitsCore] using hacc
  | succ f ih =>
    intro n acc hacc
    rw [Nat.toDigitsCore]
    have hd : (Nat.digitChar (n % 10)).isDigit = true :=
      digitChar_isDigit _ (Nat.mod_lt _ (by decide))
    by_cases h : n / 10 = 0
    · simp [h, hd, hacc]
    · simp only [h, if_false]
      exact ih _ _ (by simp [hd, hacc])

theorem toDigitsCore_length_le (f : Nat) : ∀ (n : Nat) (acc : List Char),
    acc.length ≤ (Nat.toDigitsCore 10 f n acc).length := by
  induction f with
  | zero => intro n acc; simp [Nat.toDigitsCore]
  | succ f ih =>
    intro n acc
    rw [Nat.toDigitsCore]
    by_cases h : n / 10 = 0
    · simp [h]
    · simp only [h, if_false]
      calc acc.length ≤ (Nat.digitChar (n % 10) :: acc).length := by simp
        _ ≤ _ := ih _ _

/-- Every character of the decimal representation of a natural number is
a decimal digit. -/
theorem repr_all_digits (n : Nat) : (Nat.repr n).data.all Char.isDigit = true :=
  toDigitsCore_all_digits _ _ _ rfl

/-- The decimal representation of a natural number is never empty. -/
theorem repr_ne_nil (n : Nat) : (Nat.repr n).data ≠ [] := by
  show Nat.toDigits 10 n ≠ []
  unfold Nat.toDigits
  rw [Nat.toDigitsCore]
  by_cases h : n / 10 = 0
  · simp [h]
  · simp only [h, if_false]
    intro hcon
    have hlen := toDigitsCore_length_le n (n / 10) [Nat.digitChar (n % 10)]
    rw [hcon] at hlen
    simp at hlen

/-- Dispatch reaches the contact handler for `POST /api/contact`. -/
theorem handleRequest_contact (env : Env) (clock : Clock) (b : Json) :
    handleRequest env clock ⟨"POST", "/api/contact", b⟩ = contactHandler clock b := rfl

/-- Dispatch reaches the health handler for `GET /health`. -/
theorem handleRequest_health (env : Env) (clock : Clock) (b : Json) :
    handleRequest env clock ⟨"GET", "/health", b⟩ = healthHandler env clock := rfl

/-- Dispatch reaches the intake handler for `POST /api/intake`. -/
theorem handleRequest_intake (env : Env) (clock : Clock) (b : Json) :
    handleRequest env clock ⟨"POST", "/api/intake", b⟩ = intakeHandler clock := rfl

/-- Dispatch reaches the root handler for `GET /`. -/
theorem handleRequest_root (env : Env) (clock : Clock) (b : Json) :
    handleRequest env clock ⟨"GET", "/", b⟩ = rootHandler env := rfl

/-- The `estimated_response_time` field of a contact response is the
estimate selected from the body's `service_type`. -/
theorem contact_est_field (env : Env) (clock : Clock) (body : Json) :
    (handleRequest env clock ⟨"POST", "/api/contact", body⟩).jsonField
        "estimated_response_time" =
      some (.str (contactEstimatedResponse (body.lookup "service_type"))) := rfl

/-- Contact responses with equal `service_type` lookups are equal. -/
theorem contactHandler_congr (clock : Clock) (b1 b2 : Json)
    (h : b1.lookup "service_type" = b2.lookup "service_type") :
    contactHandler clock b1 = contactHandler clock b2 := by
  unfold contactHandler
  rw [h]

/-- A sample configuration for concrete evaluations. -/
def sampleEnv : Env := ⟨.num 8080, .num 3⟩

/-- A sample clock instant for concrete evaluations. -/
def sampleClock : Clock := ⟨1700000000000, "2023-11-14T22:13:20.000Z"⟩

/-! ### Claims -/

/-- C1: For every POST /api/contact request, the handler selects
`estimated_response_time` by the body's `service_type` field:
`service_type` equal to `"legal"` yields `"12 hours"`, `service_type`
equal to `"catering"` yields `"6 hours"`, and any other or missing value
yields `"24 hours"`. -/
theorem claim1_contact_estimated_response_time (env : Env) (clock : Clock) (body : Json) :
    (body.lookup "service_type" = some (.str "legal") →
      (handleRequest env clock ⟨"POST", "/api/contact", body⟩).jsonField
        "estimated_response_time" = some (.str "12 hours")) ∧
    (body.lookup "service_type" = some (.str "catering") →
      (handleRequest env clock ⟨"POST", "/api/contact", body⟩).jsonField
        "estimated_response_time" = some (.str "6 hours")) ∧
    (body.lookup "service_type" ≠ some (.str "legal") →
      body.lookup "service_type" ≠ some (.str "catering") →
      (handleRequest env clock ⟨"POST", "/api/contact", body⟩).jsonField
        "estimated_response_time" = some (.str "24 hours")) := by
  refine ⟨fun h => ?_, fun h => ?_, fun h1 h2 => ?_⟩
  · rw [contact_est_field, h]; rfl
  · rw [contact_est_field, h]; rfl
  · rw [contact_est_field]
    unfold contactEstimatedResponse
    split
    · rename_i heq; exact absurd heq h1
    · rename_i heq; exact absurd heq h2
    · rfl

/-- C1 witness: the three branches at concrete bodies. -/
theorem claim1_contact_estimated_response_time_witness :
    (handleRequest sampleEnv sampleClock
      ⟨"POST", "/api/contact", .obj [("service_type", .str "legal")]⟩).jsonField
        "estimated_response_time" = some (.str "12 hours") ∧
    (handleRequest sampleEnv sampleClock
      ⟨"POST", "/api/contact", .obj [("service_type", .str "catering")]⟩).jsonField
        "estimated_response_time" = some (.str "6 hours") ∧
    (handleRequest sampleEnv sampleClock
      ⟨"POST", "/api/contact", .obj [("service_type", .str "consulting")]⟩).jsonField
        "estimated_response_time" = some (.str "24 hours") ∧
    (handleRequest sampleEnv sampleClock
      ⟨"POST", "/api/contact", .obj []⟩).jsonField
        "estimated_response_time" = some (.str "24 hours") :=
  ⟨(claim1_contact_estimated_response_time _ _ _).1 rfl,
   (claim1_contact_estimated_response_time _ _ _).2.1 rfl,
   (claim1_contact_estimated_response_time _ _ _).2.2 (by simp [Json.lookup]) (by simp [Json.lookup]),
   (claim1_contact_estimated_response_time _ _ _).2.2 (by simp [Json.lookup]) (by simp [Json.lookup])⟩

/-- C2 counterexample: the LAST `next_steps` item of a contact response
is the fixed string "Check your email for confirmation"; the estimated
response time is not interpolated into it (it does not even occur in it
as a substring).  The interpolating item is the third. -/
theorem claim2_counterexample :
    (handleRequest sampleEnv sampleClock ⟨"POST", "/api/contact", .obj []⟩).jsonField
        "next_steps" =
      some (.arr
        [.str "Your inquiry has been logged",
         .str "Our team will review your request",
         .str "You'll receive a response within 24 hours",
         .str "Check your email for confirmation"]) ∧
    (handleRequest sampleEnv sampleClock ⟨"POST", "/api/contact", .obj []⟩).jsonField
        "estimated_response_time" = some (.str "24 hours") ∧
    ¬ ("24 hours".data <:+: "Check your email for confirmation".data) :=
  ⟨rfl, rfl, by decide⟩

/-- C2 (amended): for every POST /api/contact request, the response's
`next_steps` is a fixed 4-item sequence whose THIRD item interpolates the
estimated response time string (the last item is the fixed string
"Check your email for confirmation"). -/
theorem claim2_next_steps_third_interpolates (env : Env) (clock : Clock) (body : Json) :
    (handleRequest env clock ⟨"POST", "/api/contact", body⟩).jsonField "next_steps" =
      some (.arr
        [.str "Your inquiry has been logged",
         .str "Our team will review your request",
         .str ("You'll receive a response within " ++
           contactEstimatedResponse (body.lookup "service_type")),
         .str "Check your email for confirmation"]) ∧
    (handleRequest env clock ⟨"POST", "/api/contact", body⟩).arrayFieldLength
        "next_steps" = some 4 :=
  ⟨rfl, rfl⟩

/-- C3 counterexample: the `endpoints` map of the GET / welcome payload
lists only four paths; neither "/" nor "/api/catering" — both served by
the service — appears among its values. -/
theorem claim3_counterexample :
    ((handleRequest sampleEnv sampleClock ⟨"GET", "/", .obj []⟩).jsonField
        "endpoints").map Json.objValues =
      some [.str "/health", .str "/api/contact", .str "/api/status", .str "/api/intake"] ∧
    (.str "/") ∉ [Json.str "/health", .str "/api/contact", .str "/api/status", .str "/api/intake"] ∧
    (.str "/api/catering") ∉ [Json.str "/health", .str "/api/contact", .str "/api/status", .str "/api/intake"] :=
  ⟨rfl, by simp, by simp⟩

/-- C3 (amended): GET / returns a static welcome payload whose
`endpoints` map lists four of the service's paths — `/health`,
`/api/contact`, `/api/status`, `/api/intake` — omitting `/` and
`/api/catering`, so it does not enumerate every path the service
serves. -/
theorem claim3_root_endpoints (env : Env) (clock : Clock) (body : Json) :
    (handleRequest env clock ⟨"GET", "/", body⟩).jsonField "endpoints" =
      some (.obj
        [("health", .str "/health"),
         ("contact", .str "/api/contact"),
         ("status", .str "/api/status"),
         ("intake", .str "/api/intake")]) := rfl

/-- C4: for every valid JSON body posted to /api/contact, the response's
`contact_id` is the string "BWM_" followed by decimal digits (the current
epoch-millisecond timestamp) and `next_steps` has exactly 4 entries. -/
theorem claim4_contact_id_shape (env : Env) (clock : Clock) (body : Json) :
    (handleRequest env clock ⟨"POST", "/api/contact", body⟩).jsonField "contact_id" =
      some (.str ("BWM_" ++ Nat.repr clock.nowMs)) ∧
    (Nat.repr clock.nowMs).data ≠ [] ∧
    (Nat.repr clock.nowMs).data.all Char.isDigit = true ∧
    (handleRequest env clock ⟨"POST", "/api/contact", body⟩).arrayFieldLength
        "next_steps" = some 4 :=
  ⟨rfl, repr_ne_nil _, repr_all_digits _, rfl⟩

/-- C5 counterexample: an OPTIONS request to an unknown path matches no
registered route, yet the service responds 200 (the CORS short-circuit),
not 404. -/
theorem claim5_counterexample :
    ¬ matchesRoute "OPTIONS" "/unknown-path" ∧
    (handleRequest sampleEnv sampleClock ⟨"OPTIONS", "/unknown-path", .obj []⟩).status = 200 ∧
    (handleRequest sampleEnv sampleClock ⟨"OPTIONS", "/unknown-path", .obj []⟩).status ≠ 404 :=
  ⟨by decide, rfl, by decide⟩

/-- C5 (amended): for every request whose method is not OPTIONS and whose
method+path matches no registered route, the service responds HTTP 404
with success=false, message "Endpoint not found", and
`available_endpoints` equal to exactly the list
['/', '/health', '/api/status', '/api/contact', '/api/intake',
'/api/catering']. -/
theorem claim5_unmatched_non_options_404 (env : Env) (clock : Clock) (req : Request)
    (hm : req.method ≠ "OPTIONS") (hr : ¬ matchesRoute req.method req.path) :
    (handleRequest env clock req).status = 404 ∧
    (handleRequest env clock req).jsonField "success" = some (.bool false) ∧
    (handleRequest env clock req).jsonField "message" =
      some (.str "Endpoint not found") ∧
    (handleRequest env clock req).jsonField "available_endpoints" =
      some (.arr
        [.str "/", .str "/health", .str "/api/status",
         .str "/api/contact", .str "/api/intake", .str "/api/catering"]) := by
  have hnf : handleRequest env clock req = notFoundHandler clock := by
    unfold handleRequest routeRequest
    rw [if_neg hm]
    rw [if_neg (fun h => hr (Or.inl ⟨h.1, Or.inl h.2⟩))]
    rw [if_neg (fun h => hr (Or.inl ⟨h.1, Or.inr (Or.inl h.2)⟩))]
    rw [if_neg (fun h => hr (Or.inl ⟨h.1, Or.inr (Or.inr h.2)⟩))]
    rw [if_neg (fun h => hr (Or.inr ⟨h.1, Or.inl h.2⟩))]
    rw [if_neg (fun h => hr (Or.inr ⟨h.1, Or.inr (Or.inl h.2)⟩))]
    rw [if_neg (fun h => hr (Or.inr ⟨h.1, Or.inr (Or.inr h.2)⟩))]
  rw [hnf]
  exact ⟨rfl, rfl, rfl, rfl⟩

/-- C5 witness: a GET request to an unknown path gets the 404 payload. -/
theorem claim5_unmatched_non_options_404_witness :
    (handleRequest sampleEnv sampleClock ⟨"GET", "/unknown-path", .obj []⟩).status = 404 ∧
    (handleRequest sampleEnv sampleClock ⟨"GET", "/unknown-path", .obj []⟩).jsonField
        "success" = some (.bool false) ∧
    (handleRequest sampleEnv sampleClock ⟨"GET", "/unknown-path", .obj []⟩).jsonField
        "message" = some (.str "Endpoint not found") ∧
    (handleRequest sampleEnv sampleClock ⟨"GET", "/unknown-path", .obj []⟩).jsonField
        "available_endpoints" =
      some (.arr
        [.str "/", .str "/health", .str "/api/status",
         .str "/api/contact", .str "/api/intake", .str "/api/catering"]) :=
  claim5_unmatched_non_options_404 sampleEnv sampleClock
    ⟨"GET", "/unknown-path", .obj []⟩ (by decide) (by decide)

/-- C6: whenever a handler throws an error, the terminal error middleware
catches it and responds HTTP 500 with a body containing success=false,
message "Internal server error", error set to the thrown error's message,
and a timestamp. -/
theorem claim6_error_middleware_500 (clock : Clock)
    (h : Request → Except String Response) (req : Request) (e : String)
    (he : h req = .error e) :
    runWithErrorHandler clock h req = errorHandler e clock ∧
    (runWithErrorHandler clock h req).status = 500 ∧
    (runWithErrorHandler clock h req).jsonField "success" = some (.bool false) ∧
    (runWithErrorHandler clock h req).jsonField "message" =
      some (.str "Internal server error") ∧
    (runWithErrorHandler clock h req).jsonField "error" = some (.str e) ∧
    (runWithErrorHandler clock h req).jsonField "timestamp" =
      some (.str clock.isoNow) := by
  have hr : runWithErrorHandler clock h req = errorHandler e clock := by
    unfold runWithErrorHandler
    rw [he]
  rw [hr]
  exact ⟨rfl, rfl, rfl, rfl, rfl, rfl⟩

/-- C6 witness: a handler that throws "boom" yields the 500 payload. -/
theorem claim6_error_middleware_500_witness :
    runWithErrorHandler sampleClock (fun _ => .error "boom")
        ⟨"GET", "/health", .obj []⟩ =
      errorHandler "boom" sampleClock ∧
    (runWithErrorHandler sampleClock (fun _ => .error "boom")
        ⟨"GET", "/health", .obj []⟩).status = 500 ∧
    (runWithErrorHandler sampleClock (fun _ => .error "boom")
        ⟨"GET", "/health", .obj []⟩).jsonField "success" = some (.bool false) ∧
    (runWithErrorHandler sampleClock (fun _ => .error "boom")
        ⟨"GET", "/health", .obj []⟩).jsonField "message" =
      some (.str "Internal server error") ∧
    (runWithErrorHandler sampleClock (fun _ => .error "boom")
        ⟨"GET", "/health", .obj []⟩).jsonField "error" = some (.str "boom") ∧
    (runWithErrorHandler sampleClock (fun _ => .error "boom")
        ⟨"GET", "/health", .obj []⟩).jsonField "timestamp" =
      some (.str sampleClock.isoNow) :=
  claim6_error_middleware_500 sampleClock (fun _ => .error "boom")
    ⟨"GET", "/health", .obj []⟩ "boom" rfl

/-- C7 counterexample: the OPTIONS short-circuit answers with
`res.sendStatus(200)`, whose body is the status message "OK" — not an
empty body as the claim states. -/
theorem claim7_counterexample :
    (handleRequest sampleEnv sampleClock ⟨"OPTIONS", "/api/contact", .obj []⟩).body =
      .text "OK" ∧
    (handleRequest sampleEnv sampleClock ⟨"OPTIONS", "/api/contact", .obj []⟩).body ≠
      .empty :=
  ⟨rfl, fun h => ResBody.noConfusion h⟩

/-- C7 (amended): for every OPTIONS request, to any path, the CORS
middleware short-circuits before routing and responds HTTP 200 whose
body is the status message "OK" (`res.sendStatus(200)`), with the
permissive CORS headers (Access-Control-Allow-Origin '*', fixed method
and header allow-lists) set on the response. -/
theorem claim7_options_short_circuit (env : Env) (clock : Clock) (path : String) (body : Json) :
    handleRequest env clock ⟨"OPTIONS", path, body⟩ =
      { status := 200, headers := corsHeaders, body := .text "OK" } := rfl

/-- C8: GET /health always returns HTTP 200 with status "healthy" (plus
timestamp, configured port, and service name), for every request and
regardless of any prior request history — the health result does not
depend on any state changed by earlier requests. -/
theorem claim8_health_stateless (env : Env) (clock : Clock) (req : Request)
    (hm : req.method = "GET") (hp : req.path = "/health")
    (hist1 hist2 : List (Clock × Request)) :
    (handleRequest env clock req).status = 200 ∧
    (handleRequest env clock req).jsonField "status" = some (.str "healthy") ∧
    (handleRequest env clock req).jsonField "timestamp" = some (.str clock.isoNow) ∧
    (handleRequest env clock req).jsonField "port" = some env.port ∧
    (handleRequest env clock req).jsonField "service" =
      some (.str "byword-intake-api") ∧
    (serverRun env (hist1 ++ [(clock, req)])).getLast? =
      (serverRun env (hist2 ++ [(clock, req)])).getLast? := by
  obtain ⟨m, p, b⟩ := req
  simp only at hm hp
  subst hm
  subst hp
  refine ⟨rfl, rfl, rfl, rfl, rfl, ?_⟩
  simp [serverRun, List.getLast?_concat]

/-- C8 witness: a health request after an empty history and after a
one-request history gets the same healthy answer. -/
theorem claim8_health_stateless_witness :
    (handleRequest sampleEnv sampleClock ⟨"GET", "/health", .obj []⟩).status = 200 ∧
    (handleRequest sampleEnv sampleClock ⟨"GET", "/health", .obj []⟩).jsonField
        "status" = some (.str "healthy") ∧
    (handleRequest sampleEnv sampleClock ⟨"GET", "/health", .obj []⟩).jsonField
        "timestamp" = some (.str sampleClock.isoNow) ∧
    (handleRequest sampleEnv sampleClock ⟨"GET", "/health", .obj []⟩).jsonField
        "port" = some sampleEnv.port ∧
    (handleRequest sampleEnv sampleClock ⟨"GET", "/health", .obj []⟩).jsonField
        "service" = some (.str "byword-intake-api") ∧
    (serverRun sampleEnv
        ([] ++ [(sampleClock, ⟨"GET", "/health", .obj []⟩)])).getLast? =
      (serverRun sampleEnv
        ([(sampleClock, ⟨"POST", "/api/contact", .obj []⟩)] ++
          [(sampleClock, ⟨"GET", "/health", .obj []⟩)])).getLast? :=
  claim8_health_stateless sampleEnv sampleClock ⟨"GET", "/health", .obj []⟩ rfl rfl
    [] [(sampleClock, ⟨"POST", "/api/contact", .obj []⟩)]

/-- C9: POST /api/intake with the empty JSON body (and any JSON body, as
no required-field validation is performed) returns HTTP 200 with
`case_id` equal to "LEGAL_" followed by decimal digits and status
"pending_review". -/
theorem claim9_intake_response (env : Env) (clock : Clock) (body : Json) :
    (handleRequest env clock ⟨"POST", "/api/intake", body⟩).status = 200 ∧
    (handleRequest env clock ⟨"POST", "/api/intake", body⟩).jsonField "case_id" =
      some (.str ("LEGAL_" ++ Nat.repr clock.nowMs)) ∧
    (Nat.repr clock.nowMs).data ≠ [] ∧
    (Nat.repr clock.nowMs).data.all Char.isDigit = true ∧
    (handleRequest env clock ⟨"POST", "/api/intake", body⟩).jsonField "status" =
      some (.str "pending_review") :=
  ⟨rfl, rfl, repr_ne_nil _, repr_all_digits _, rfl⟩

/-- C10: the POST /api/contact response body depends only on the body's
`service_type` field and the current clock: two contact requests with
the same `service_type` value, evaluated at the same clock instant,
yield identical response bodies regardless of the name, email, phone,
company, and message fields. -/
theorem claim10_contact_depends_only_on_service_type (env : Env) (clock : Clock)
    (b1 b2 : Json) (h : b1.lookup "service_type" = b2.lookup "service_type") :
    handleRequest env clock ⟨"POST", "/api/contact", b1⟩ =
      handleRequest env clock ⟨"POST", "/api/contact", b2⟩ := by
  rw [handleRequest_contact, handleRequest_contact]
  exact contactHandler_congr clock b1 b2 h

/-- C10 witness: two bodies that differ in name, email and message but
agree on `service_type` get the same response. -/
theorem claim10_contact_depends_only_on_service_type_witness :
    (Json.obj [("name", .str "Alice"), ("email", .str "alice@example.com"),
      ("service_type", .str "legal")]).lookup "name" ≠
      (Json.obj [("name", .str "Bob"), ("service_type", .str "legal"),
        ("message", .str "hello")]).lookup "name" ∧
    handleRequest sampleEnv sampleClock
        ⟨"POST", "/api/contact",
          .obj [("name", .str "Alice"), ("email", .str "alice@example.com"),
            ("service_type", .str "legal")]⟩ =
      handleRequest sampleEnv sampleClock
        ⟨"POST", "/api/contact",
          .obj [("name", .str "Bob"), ("service_type", .str "legal"),
            ("message", .str "hello")]⟩ :=
  ⟨by simp [Json.lookup],
   claim10_contact_depends_only_on_service_type sampleEnv sampleClock _ _ rfl⟩

end Byword
